import Mathlib

/-!
Verification of the CARD-MACHINE lottery program (Rust/Anchor sources under
`src/`).  The development shallowly embeds the relevant program fragments:

* `src/constants.rs` — the tier table and business constants;
* `src/utils/vrf_helper.rs` — entropy derivation, tiered reward mapping,
  active-pool selection, and the VRF-result accumulator;
* `src/instructions/oracle/consume_randomness.rs` plus the
  `ConsumeLotteryRandomness` account constraints of `src/lib.rs` — the
  Pending → Revealed transition;
* `src/instructions/user/claim.rs` with `src/utils/pyth_oracle.rs` and
  `src/utils/jupiter_cpi.rs` — the claim/settlement dispatcher;
* `src/instructions/user/refund.rs` — the timeout refund path;
* `src/instructions/admin/prize_pool.rs` — the prize-pool registry.

Machine integers are modelled as `Nat` (with explicit `% 2 ^ w` or explicit
overflow checks exactly where the Rust code wraps, saturates or checks);
timestamps (`i64` seconds) are modelled as `Int`.  Byte arrays `[u8; 32]`
become `Fin 32 → Nat` together with a `< 256` bound where a proof needs it,
and the `[u8; 50]` active-index array becomes a total function `Nat → Nat`
read only at positions below 50.  Solana public keys are abstracted to `Nat`
(the programs compare them only for equality).  Fallible instructions return
`Except IPFlowError α`; a Solana transaction that errors is rolled back
atomically, which the embedding reflects by returning the error without
producing a successor state.
-/

deriving instance DecidableEq for Except

namespace CardMachine

/-! ### Constants (src/constants.rs) -/

def USD_PRECISION : Nat := 1000000

def CLAIM_TIMEOUT_SECONDS : Int := 24 * 60 * 60

def DEFAULT_SLIPPAGE_BPS : Nat := 300

def MAX_PRIZE_POOLS : Nat := 50

def PROB_PRECISION : Nat := 1000000

def REWARD_STEP : Nat := 100000

def TIER1_THRESHOLD : Nat := 150000

def TIER1_MIN_USD : Nat := 5000000

def TIER1_STEPS : Nat := 21

def TIER2_THRESHOLD : Nat := 650000

def TIER2_MIN_USD : Nat := 7000000

def TIER2_STEPS : Nat := 71

def TIER3_THRESHOLD : Nat := 950000

def TIER3_MIN_USD : Nat := 14000000

def TIER3_STEPS : Nat := 360

def TIER4_MIN_USD : Nat := 50000000

def TIER4_STEPS : Nat := 500

def TIER4_MAX_USD : Nat := 99900000

/-- Model of the fixed USDT devnet mint address (`USDT_MINT_DEVNET` in
src/constants.rs); public keys are abstracted to `Nat`, and this constant
stands for that one distinguished key. -/
def USDT_MINT_DEVNET : Nat := 77

/-! ### u64 / saturating arithmetic helpers -/

/-- Rust `u64::checked_add`: both operands are u64 values; the sum overflows
iff it reaches `2 ^ 64`. -/
def checked_add_u64 (a b : Nat) : Option Nat :=
  if a + b < 2 ^ 64 then some (a + b) else none

/-- Rust `u64::saturating_add`. -/
def satAdd64 (a b : Nat) : Nat := min (a + b) (2 ^ 64 - 1)

/-- Rust `u64::saturating_mul`. -/
def satMul64 (a b : Nat) : Nat := min (a * b) (2 ^ 64 - 1)

/-! ### Byte-array helpers -/

/-- Read byte `k` of a 32-byte array, 0 beyond the end (all program reads are
in bounds). -/
def byteAt (b : Fin 32 → Nat) (k : Nat) : Nat :=
  if h : k < 32 then b ⟨k, h⟩ else 0

/-- `u64::from_le_bytes` applied to bytes `s .. s+7` of a 32-byte array, as in
`src/utils/vrf_helper.rs`. -/
def leU64 (b : Fin 32 → Nat) (s : Nat) : Nat :=
  byteAt b s + byteAt b (s + 1) * 256 + byteAt b (s + 2) * 256 ^ 2 +
    byteAt b (s + 3) * 256 ^ 3 + byteAt b (s + 4) * 256 ^ 4 +
    byteAt b (s + 5) * 256 ^ 5 + byteAt b (s + 6) * 256 ^ 6 +
    byteAt b (s + 7) * 256 ^ 7

/-! ### Entropy derivation (vrf_helper.rs, `derive_random_result`) -/

/-- Byte `k` of `index.to_le_bytes()` for a `u32` index. -/
def indexByte (index k : Nat) : Nat := index / 256 ^ k % 256

/-- First loop of `derive_random_result`: per-byte XOR with the cycled index
bytes followed by a wrapping add of `(index as u8) * ((i + 1) as u8)`. -/
def phase1 (seed : Fin 32 → Nat) (index : Nat) (i : Fin 32) : Nat :=
  ((seed i ^^^ indexByte index (i.val % 4)) + index % 256 * ((i.val + 1) % 256) % 256) % 256

/-- Second loop of `derive_random_result` (the byte cascade
`result[i] ^= result[i-1].wrapping_mul(31)` over the already-updated bytes),
unrolled as a recursion on the position. -/
def deriveAux (p : Fin 32 → Nat) : Nat → Nat
  | 0 => p ⟨0, by omega⟩
  | k + 1 => (if h : k + 1 < 32 then p ⟨k + 1, h⟩ else 0) ^^^ deriveAux p k * 31 % 256

/-- `derive_random_result` from src/utils/vrf_helper.rs. -/
def derive_random_result (seed : Fin 32 → Nat) (index : Nat) : Fin 32 → Nat :=
  fun i => deriveAux (phase1 seed index) i.val

/-! ### Tiered reward mapping (vrf_helper.rs, `map_to_tiered_distribution`) -/

/-- `map_to_tiered_distribution` from src/utils/vrf_helper.rs: bytes 0-7 pick
the tier (mod `PROB_PRECISION` against cumulative thresholds), bytes 8-15 pick
the discrete step, and the reward is `min_usd.saturating_add(idx.saturating_mul(REWARD_STEP))`. -/
def map_to_tiered_distribution (random_bytes : Fin 32 → Nat) : Nat :=
  let tier_entropy := leU64 random_bytes 0
  let tier_roll := tier_entropy % PROB_PRECISION
  let step_entropy := leU64 random_bytes 8
  let p :=
    if tier_roll < TIER1_THRESHOLD then (TIER1_MIN_USD, TIER1_STEPS)
    else if tier_roll < TIER2_THRESHOLD then (TIER2_MIN_USD, TIER2_STEPS)
    else if tier_roll < TIER3_THRESHOLD then (TIER3_MIN_USD, TIER3_STEPS)
    else (TIER4_MIN_USD, TIER4_STEPS)
  satAdd64 p.1 (satMul64 (step_entropy % p.2) REWARD_STEP)

/-- Claim-side restatement of the reward mapping, written from the spec text
(§4.2 of spec.md): reduce bytes 0-7 modulo 1,000,000, compare against the
cumulative thresholds 150,000 / 650,000 / 950,000, reduce bytes 8-15 modulo
the tier step count, and return tier minimum + step × 100,000. -/
def rewardSpec (b : Fin 32 → Nat) : Nat :=
  let roll := leU64 b 0 % 1000000
  let mn := if roll < 150000 then 5000000
    else if roll < 650000 then 7000000
    else if roll < 950000 then 14000000
    else 50000000
  let steps := if roll < 150000 then 21
    else if roll < 650000 then 71
    else if roll < 950000 then 360
    else 500
  mn + leU64 b 8 % steps * 100000

/-- Concrete entropy for the spec scenario: bytes 0-7 encode 100,000 in little
endian, bytes 8-15 are zero. -/
def scenarioBytes : Fin 32 → Nat :=
  fun i => if i.val = 0 then 160 else if i.val = 1 then 134 else if i.val = 2 then 1 else 0

/-! ### Active pool selection (vrf_helper.rs, `select_active_prize_pool`) -/

/-- `select_active_prize_pool` from src/utils/vrf_helper.rs: 0 when no pool is
active, otherwise the entry of the active-index array at position
`u64::from_le_bytes(bytes 8..16) % active_pool_count`. -/
def select_active_prize_pool (random_bytes : Fin 32 → Nat) (active_pool_count : Nat)
    (active_pool_indices : Nat → Nat) : Nat :=
  if active_pool_count = 0 then 0
  else active_pool_indices (leU64 random_bytes 8 % active_pool_count)

/-! ### VRF result accumulation (vrf_helper.rs, `process_vrf_result`) -/

/-- Result record of `process_vrf_result` (`LotteryResult` in vrf_helper.rs). -/
structure LotteryResult where
  total_won_usd : Nat
  selected_pool_index : Nat
deriving DecidableEq

/-- The reward-accumulation loop of `process_vrf_result`: starting from 0,
`checked_add` the reward of card `i` for `i = 0 .. n-1` (the recursion adds
card `n - 1` last, exactly like the ascending `for` loop). `none` models the
`ProgramError::ArithmeticOverflow` early return. -/
def sumRewards (randomness : Fin 32 → Nat) : Nat → Option Nat
  | 0 => some 0
  | n + 1 =>
    match sumRewards randomness n with
    | none => none
    | some t => checked_add_u64 t (map_to_tiered_distribution (derive_random_result randomness n))

/-- Mathematical (unchecked) sum of the per-card rewards, used to state what
the checked loop computes. -/
def specSum (randomness : Fin 32 → Nat) : Nat → Nat
  | 0 => 0
  | n + 1 => specSum randomness n + map_to_tiered_distribution (derive_random_result randomness n)

/-- `process_vrf_result` from src/utils/vrf_helper.rs. -/
def process_vrf_result (randomness : Fin 32 → Nat) (amount_of_cards : Nat)
    (active_pool_count : Nat) (active_pool_indices : Nat → Nat) : Option LotteryResult :=
  match sumRewards randomness amount_of_cards with
  | none => none
  | some total_won_usd =>
    some { total_won_usd := total_won_usd,
           selected_pool_index :=
             if 0 < active_pool_count then
               select_active_prize_pool randomness active_pool_count active_pool_indices
             else 0 }

/-! ### Data model (src/state, src/errors.rs) -/

/-- `RequestStatus` from src/state/mint_request.rs. -/
inductive RequestStatus where
  | Pending
  | Revealed
  | Claimed
  | Failed
deriving DecidableEq

/-- `PaymentMode` from src/state/mint_request.rs. -/
inductive PaymentMode where
  | SOL
  | USDT
deriving DecidableEq

/-- `PayoutMode` from src/state/mint_request.rs. -/
inductive PayoutMode where
  | SOL
  | Token
deriving DecidableEq

/-- `SwapRouter` from src/state/mint_request.rs. -/
inductive SwapRouter where
  | Jupiter
  | Raydium
deriving DecidableEq

/-- `PoolType` from src/state/prize_pool.rs. -/
inductive PoolType where
  | RaydiumCPMM
  | RaydiumAMM
  | Jupiter
  | Orca
deriving DecidableEq

/-- `MintRequest` from src/state/mint_request.rs (public keys abstracted to
`Nat`, `u32`/`u64` fields as `Nat`, `i64` timestamps as `Int`). -/
structure MintRequest where
  user : Nat
  randomness_account : Nat
  amount_of_cards : Nat
  status : RequestStatus
  payment_mode : PaymentMode
  total_won_usd : Nat
  paid_amount : Nat
  created_at : Int
  revealed_at : Int
  selected_pool_index : Nat
  commit_slot : Nat
  reveal_slot : Nat
  vrf_request_slot : Nat
deriving DecidableEq

/-- `IPFlowState` (the global configuration) from src/state/global_config.rs;
the `[u8; 50]` active-index array is a total function read below index 50. -/
structure IPFlowState where
  admin : Nat
  vault_bump : Nat
  total_collected : Nat
  platform_fee_bps : Nat
  is_paused : Bool
  pool_count : Nat
  prize_pool_count : Nat
  active_pool_count : Nat
  active_pool_indices : Nat → Nat
  oracle_queue : Nat
  request_timeout_seconds : Int

/-- `PrizePoolAccount` from src/state/prize_pool.rs. -/
structure PrizePoolAccount where
  index : Nat
  swap_pool : Nat
  pool_type : PoolType
  name : String
  bump : Nat
deriving DecidableEq

/-- SPL token account fields read by the refund handler. -/
structure TokenAccount where
  amount : Nat
  owner : Nat
  mint : Nat
deriving DecidableEq

/-- `IPFlowError` variants from src/errors.rs that the embedded instructions
can produce, plus the two Anchor framework account errors
(`AccountNotInitialized` for a closed/absent PDA, `AccountAlreadyInUse` for an
`init` on an existing PDA). -/
inductive IPFlowError where
  | PythPriceStale
  | PythPriceInvalid
  | MathOverflow
  | InvalidChoice
  | Unauthorized
  | InvalidTokenAccount
  | InvalidRequestStatus
  | ClaimExpired
  | MissingSwapAccounts
  | MissingExpectedOutput
  | JupiterSwapFailed
  | InvalidRaydiumProgram
  | RaydiumSwapFailed
  | WsolWrapFailed
  | RefundNotAllowed
  | InsufficientVaultBalance
  | MaxPrizePoolsReached
  | InvalidPrizePoolIndex
  | NoPrizePoolToRemove
  | AccountNotInitialized
  | AccountAlreadyInUse
deriving DecidableEq

/-! ### Reveal (src/instructions/oracle/consume_randomness.rs and the
`ConsumeLotteryRandomness` accounts of src/lib.rs) -/

/-- Handler body of `consume_randomness::handler`: the idempotency early
return for `Revealed`, the `Pending` re-check, `process_vrf_result`
(overflow mapped to `MathOverflow`), and the field updates. -/
def consume_randomness_handler (req : MintRequest) (config : IPFlowState)
    (randomness : Fin 32 → Nat) (now : Int) (slot : Nat) : Except IPFlowError MintRequest :=
  if req.status = RequestStatus.Revealed then .ok req
  else if ¬ req.status = RequestStatus.Pending then .error .InvalidRequestStatus
  else
    match process_vrf_result randomness req.amount_of_cards config.active_pool_count
        config.active_pool_indices with
    | none => .error .MathOverflow
    | some result =>
      .ok { req with
            status := RequestStatus.Revealed,
            total_won_usd := result.total_won_usd,
            selected_pool_index := result.selected_pool_index,
            revealed_at := now,
            reveal_slot := slot }

/-- The full `consume_lottery_randomness` instruction: Anchor first enforces
the account constraint `mint_request.status == RequestStatus::Pending`
(src/lib.rs, `ConsumeLotteryRandomness`) and only then runs the handler. -/
def consume_lottery_randomness (req : MintRequest) (config : IPFlowState)
    (randomness : Fin 32 → Nat) (now : Int) (slot : Nat) : Except IPFlowError MintRequest :=
  if req.status = RequestStatus.Pending then
    consume_randomness_handler req config randomness now slot
  else .error .InvalidRequestStatus

/-- Post-state of the request record after invoking the instruction: on error
the Solana transaction is rolled back, so the record keeps its old value. -/
def consume_applied (req : MintRequest) (config : IPFlowState)
    (randomness : Fin 32 → Nat) (now : Int) (slot : Nat) : MintRequest :=
  match consume_lottery_randomness req config randomness now slot with
  | .ok r => r
  | .error _ => req

/-! ### Price oracle conversion (src/utils/pyth_oracle.rs) -/

/-- `get_lamports_for_micro_usd`: the fetched Pyth quote is abstracted to
`fresh` (the staleness check), `price : Int` and `expo` (the absolute value of
the exponent); the checked u128 arithmetic and the final truncating `as u64`
cast are kept exactly. -/
def get_lamports_for_micro_usd (fresh : Bool) (price : Int) (expo : Nat)
    (micro_usd_amount : Nat) : Except IPFlowError Nat :=
  if ¬ fresh then .error .PythPriceStale
  else if ¬ 0 < price then .error .PythPriceInvalid
  else if ¬ 10 ^ expo < 2 ^ 128 then .error .MathOverflow
  else if ¬ micro_usd_amount * 10 ^ 9 < 2 ^ 128 then .error .MathOverflow
  else if ¬ micro_usd_amount * 10 ^ 9 * 10 ^ expo < 2 ^ 128 then .error .MathOverflow
  else if ¬ price.toNat * USD_PRECISION < 2 ^ 128 then .error .MathOverflow
  else .ok (micro_usd_amount * 10 ^ 9 * 10 ^ expo / (price.toNat * USD_PRECISION) % 2 ^ 64)

/-- `calculate_min_output` from src/utils/jupiter_cpi.rs:
`expected * (10000 - slippage_bps) / 10000` with a checked multiply. -/
def calculate_min_output (expected_output slippage_bps : Nat) : Except IPFlowError Nat :=
  if ¬ expected_output * (10000 - slippage_bps) < 2 ^ 64 then .error .MathOverflow
  else .ok (expected_output * (10000 - slippage_bps) / 10000)

/-! ### Claim (src/instructions/user/claim.rs and the `Claim` accounts of
src/lib.rs) -/

/-- The disbursement the claim handler hands to its external collaborator:
either a direct vault → user lamport transfer, or a swap invocation carrying
the input amount and the slippage-protected minimum output (spec §6 treats
the venue itself as an external collaborator whose failure aborts the whole
transaction). -/
inductive PayoutAction where
  | solTransfer (lamports : Nat)
  | jupiterSwap (amount_in minimum_amount_out : Nat) (swap_data : List Nat)
  | raydiumSwap (amount_in minimum_amount_out : Nat)
deriving DecidableEq

/-- Handler body of `claim::handler`.  Oracle data (`fresh`, `price`, `expo`),
the vault balance, the rent minimum, the number of `remaining_accounts` and
whether `remaining_accounts[0]` is one of the two allow-listed Raydium program
ids are environment inputs. -/
def claim_handler (req : MintRequest) (now : Int) (fresh : Bool) (price : Int) (expo : Nat)
    (vault_lamports min_rent remaining_count : Nat) (raydium_program_ok : Bool)
    (payout_mode : PayoutMode) (swap_router : Option SwapRouter)
    (expected_token_output : Option Nat) (swap_data : Option (List Nat)) :
    Except IPFlowError (MintRequest × PayoutAction) :=
  if ¬ now - req.revealed_at < CLAIM_TIMEOUT_SECONDS then .error .ClaimExpired
  else
    match payout_mode with
    | PayoutMode.SOL =>
      if ¬ req.total_won_usd * 95 < 2 ^ 64 then .error .MathOverflow
      else
        let payout_usd := req.total_won_usd * 95 / 100
        match get_lamports_for_micro_usd fresh price expo payout_usd with
        | .error e => .error e
        | .ok total_lamports =>
          if ¬ total_lamports ≤ vault_lamports - min_rent then .error .InsufficientVaultBalance
          else
            .ok ({ req with status := RequestStatus.Claimed, paid_amount := total_lamports },
                 PayoutAction.solTransfer total_lamports)
    | PayoutMode.Token =>
      match expected_token_output with
      | none => .error .MissingExpectedOutput
      | some expected_output =>
        match swap_router with
        | none => .error .InvalidChoice
        | some router =>
          if remaining_count = 0 then .error .MissingSwapAccounts
          else
            let payout_usd := req.total_won_usd
            match get_lamports_for_micro_usd fresh price expo payout_usd with
            | .error e => .error e
            | .ok amount_in =>
              match calculate_min_output expected_output DEFAULT_SLIPPAGE_BPS with
              | .error e => .error e
              | .ok minimum_amount_out =>
                match router with
                | SwapRouter.Jupiter =>
                  match swap_data with
                  | none => .error .MissingExpectedOutput
                  | some data =>
                    if ¬ 3 ≤ remaining_count then .error .MissingSwapAccounts
                    else
                      .ok ({ req with status := RequestStatus.Claimed, paid_amount := amount_in },
                           PayoutAction.jupiterSwap amount_in minimum_amount_out data)
                | SwapRouter.Raydium =>
                  if ¬ 13 ≤ remaining_count then .error .MissingSwapAccounts
                  else if ¬ raydium_program_ok then .error .InvalidRaydiumProgram
                  else
                    .ok ({ req with status := RequestStatus.Claimed, paid_amount := amount_in },
                         PayoutAction.raydiumSwap amount_in minimum_amount_out)

/-- The full claim instruction: the Anchor constraints of `Claim` (src/lib.rs)
check the owner (`has_one = user`) and `status == Revealed` before the handler
runs; on success the record PDA is closed (`close = user`), modelled by the
`none` in the result. -/
def claim_instruction (req : MintRequest) (signer : Nat) (now : Int) (fresh : Bool)
    (price : Int) (expo : Nat) (vault_lamports min_rent remaining_count : Nat)
    (raydium_program_ok : Bool) (payout_mode : PayoutMode) (swap_router : Option SwapRouter)
    (expected_token_output : Option Nat) (swap_data : Option (List Nat)) :
    Except IPFlowError (Option MintRequest × PayoutAction) :=
  if ¬ req.user = signer then .error .Unauthorized
  else if ¬ req.status = RequestStatus.Revealed then .error .InvalidRequestStatus
  else
    match claim_handler req now fresh price expo vault_lamports min_rent remaining_count
        raydium_program_ok payout_mode swap_router expected_token_output swap_data with
    | .error e => .error e
    | .ok (_, action) => .ok (none, action)

/-! ### Refund (src/instructions/user/refund.rs and the `Refund` accounts of
src/lib.rs) -/

/-- Transfer performed by a successful refund. -/
inductive RefundTransfer where
  | solTransfer (lamports : Nat)
  | usdtTransfer (amount : Nat)
deriving DecidableEq

/-- Handler body of `refund::handler`: requires `status == Pending` and
`now - created_at > request_timeout_seconds`, then refunds `paid_amount` in
the original payment currency after the mode-specific balance and account
checks. -/
def refund_handler (req : MintRequest) (config : IPFlowState) (signer vault_key : Nat)
    (now : Int) (vault_lamports : Nat) (token_program_present : Bool)
    (vault_token user_token : Option TokenAccount) : Except IPFlowError RefundTransfer :=
  if ¬ (req.status = RequestStatus.Pending ∧
        config.request_timeout_seconds < now - req.created_at) then
    .error .RefundNotAllowed
  else
    match req.payment_mode with
    | PaymentMode.SOL =>
      if ¬ req.paid_amount ≤ vault_lamports then .error .InsufficientVaultBalance
      else .ok (RefundTransfer.solTransfer req.paid_amount)
    | PaymentMode.USDT =>
      if ¬ token_program_present then .error .RefundNotAllowed
      else
        match vault_token with
        | none => .error .RefundNotAllowed
        | some vta =>
          match user_token with
          | none => .error .RefundNotAllowed
          | some uta =>
            if ¬ req.paid_amount ≤ vta.amount then .error .InsufficientVaultBalance
            else if ¬ uta.owner = signer then .error .Unauthorized
            else if ¬ uta.mint = USDT_MINT_DEVNET then .error .InvalidTokenAccount
            else if ¬ vta.mint = USDT_MINT_DEVNET then .error .InvalidTokenAccount
            else if ¬ vta.owner = vault_key then .error .InvalidTokenAccount
            else .ok (RefundTransfer.usdtTransfer req.paid_amount)

/-- The full refund instruction: loading an already-closed request PDA fails
Anchor account validation (`AccountNotInitialized`), `has_one = user` checks
the owner, and on success `close = user` destroys the record (`none`). -/
def refund_instruction (reqOpt : Option MintRequest) (config : IPFlowState)
    (signer vault_key : Nat) (now : Int) (vault_lamports : Nat)
    (token_program_present : Bool) (vault_token user_token : Option TokenAccount) :
    Except IPFlowError (Option MintRequest × RefundTransfer) :=
  match reqOpt with
  | none => .error .AccountNotInitialized
  | some req =>
    if ¬ req.user = signer then .error .Unauthorized
    else
      match refund_handler req config signer vault_key now vault_lamports
          token_program_present vault_token user_token with
      | .error e => .error e
      | .ok t => .ok (none, t)

/-! ### Prize pool registry (src/instructions/admin/prize_pool.rs and the
`AddPrizePool` / `RemovePrizePool` accounts of src/lib.rs)

Pool records live in PDAs addressed by `[b"prize_pool", &[index]]` — one `u8`
seed byte — so the record store is a map from the identifier to an optional
record. -/

/-- The linear scan of `remove_prize_pool`: first position `i` (counting from
`i0`) with `a i = target`, examining `fuel` slots. -/
def findGo (a : Nat → Nat) (target : Nat) : Nat → Nat → Option Nat
  | _, 0 => none
  | i, fuel + 1 => if a i = target then some i else findGo a target (i + 1) fuel

/-- The shift loop of `remove_prize_pool`
(`for i in pos..last_active { a[i] = a[i+1] }`), with `fuel` remaining
iterations starting at slot `i`. -/
def shiftGo (a : Nat → Nat) : Nat → Nat → (Nat → Nat)
  | _, 0 => a
  | i, fuel + 1 => shiftGo (fun j => if j = i then a (i + 1) else a j) (i + 1) fuel

/-- `add_prize_pool`: Anchor `init` first requires the PDA at seed
`config.prize_pool_count` to be vacant; the handler then checks capacity,
initialises the record with `index = prize_pool_count`, appends that id at
position `active_pool_count`, and increments both counters.  The two `u8`
`+= 1` increments are overflow-checked (Anchor builds with
`overflow-checks = true`), so the transaction aborts instead of wrapping. -/
def add_prize_pool (config : IPFlowState) (pools : Nat → Option PrizePoolAccount)
    (swap_pool : Nat) (pool_type : PoolType) (name : String) :
    Except IPFlowError (IPFlowState × (Nat → Option PrizePoolAccount)) :=
  if ¬ (pools config.prize_pool_count).isNone then .error .AccountAlreadyInUse
  else if ¬ config.active_pool_count < MAX_PRIZE_POOLS then .error .MaxPrizePoolsReached
  else if ¬ config.active_pool_count + 1 < 256 then .error .MathOverflow
  else if ¬ config.prize_pool_count + 1 < 256 then .error .MathOverflow
  else
    .ok ({ config with
           active_pool_indices :=
             fun j => if j = config.active_pool_count then config.prize_pool_count
                      else config.active_pool_indices j,
           active_pool_count := config.active_pool_count + 1,
           prize_pool_count := config.prize_pool_count + 1 },
         fun id => if id = config.prize_pool_count then
             some { index := config.prize_pool_count, swap_pool := swap_pool,
                    pool_type := pool_type, name := name, bump := 0 }
           else pools id)

/-- `remove_prize_pool`: the pool PDA must exist (its address is its `index`),
the id is located in the first `active_pool_count` slots, later entries shift
left, the vacated slot becomes the sentinel 255, the active count decrements
(`prize_pool_count` untouched), and `close = admin` destroys the record. -/
def remove_prize_pool (config : IPFlowState) (pools : Nat → Option PrizePoolAccount)
    (target : Nat) : Except IPFlowError (IPFlowState × (Nat → Option PrizePoolAccount)) :=
  match pools target with
  | none => .error .AccountNotInitialized
  | some prize_pool =>
    if ¬ 0 < config.active_pool_count then .error .NoPrizePoolToRemove
    else
      match findGo config.active_pool_indices prize_pool.index 0 config.active_pool_count with
      | none => .error .InvalidPrizePoolIndex
      | some pos =>
        let last_active := config.active_pool_count - 1
        let shifted := shiftGo config.active_pool_indices pos (last_active - pos)
        .ok ({ config with
               active_pool_indices := fun j => if j = last_active then 255 else shifted j,
               active_pool_count := config.active_pool_count - 1 },
             fun id => if id = target then none else pools id)

/-- `update_prize_pool`: mutates destination/type/name of an existing pool in
place; never touches `index`, the active list or the counters. -/
def update_prize_pool (config : IPFlowState) (pools : Nat → Option PrizePoolAccount)
    (target : Nat) (swap_pool : Option Nat) (pool_type : Option PoolType)
    (name : Option String) :
    Except IPFlowError (IPFlowState × (Nat → Option PrizePoolAccount)) :=
  match pools target with
  | none => .error .AccountNotInitialized
  | some prize_pool =>
    .ok (config,
         fun id => if id = target then
             some { prize_pool with
                    swap_pool := swap_pool.getD prize_pool.swap_pool,
                    pool_type := pool_type.getD prize_pool.pool_type,
                    name := name.getD prize_pool.name }
           else pools id)

/-- Joint state of the registry: the global configuration plus the pool PDAs. -/
structure Registry where
  config : IPFlowState
  pools : Nat → Option PrizePoolAccount

/-- One administrator operation on the registry. -/
inductive RegOp where
  | add (swap_pool : Nat) (pool_type : PoolType) (name : String)
  | remove (target : Nat)
  | update (target : Nat) (swap_pool : Option Nat) (pool_type : Option PoolType)
      (name : Option String)

/-- Apply one operation; a failed transaction rolls back, leaving the state. -/
def applyOp (s : Registry) : RegOp → Registry
  | RegOp.add sp pt nm =>
    match add_prize_pool s.config s.pools sp pt nm with
    | .ok (c, p) => ⟨c, p⟩
    | .error _ => s
  | RegOp.remove t =>
    match remove_prize_pool s.config s.pools t with
    | .ok (c, p) => ⟨c, p⟩
    | .error _ => s
  | RegOp.update t sp pt nm =>
    match update_prize_pool s.config s.pools t sp pt nm with
    | .ok (c, p) => ⟨c, p⟩
    | .error _ => s

/-- Apply a sequence of operations in order. -/
def applySeq (s : Registry) : List RegOp → Registry
  | [] => s
  | op :: ops => applySeq (applyOp s op) ops

/-- Identifier coherence: every pool record sits at the PDA of its own
`index`, and every allocated identifier is below the monotonic counter.
Under this invariant two distinct pool records can never share an
identifier. -/
def RegInv (s : Registry) : Prop :=
  ∀ id rec, s.pools id = some rec → rec.index = id ∧ id < s.config.prize_pool_count

/-! ## Theorems -/

/-- The saturating arithmetic of the tiered mapping never saturates: the
result is exactly tier minimum + step × granularity. -/
theorem map_to_tiered_eq_rewardSpec (b : Fin 32 → Nat) :
    map_to_tiered_distribution b = rewardSpec b := by
  have h64 : (2 : Nat) ^ 64 - 1 = 18446744073709551615 := by norm_num
  simp only [map_to_tiered_distribution, rewardSpec, satAdd64, satMul64, PROB_PRECISION,
    TIER1_THRESHOLD, TIER2_THRESHOLD, TIER3_THRESHOLD, TIER1_MIN_USD, TIER1_STEPS,
    TIER2_MIN_USD, TIER2_STEPS, TIER3_MIN_USD, TIER3_STEPS, TIER4_MIN_USD, TIER4_STEPS,
    REWARD_STEP, h64]
  by_cases h1 : leU64 b 0 % 1000000 < 150000 <;>
    by_cases h2 : leU64 b 0 % 1000000 < 650000 <;>
      by_cases h3 : leU64 b 0 % 1000000 < 950000 <;>
        simp only [h1, h2, h3, if_true, if_false] <;> omega

/-- C1: for every 32-byte entropy value the reward mapping reduces bytes 0-7
(little-endian u64) modulo 1,000,000, compares the roll against the cumulative
thresholds 150,000 / 650,000 / 950,000 (tier minima 5.0 / 7.0 / 14.0 / 50.0
USD with 21 / 71 / 360 / 500 steps), reduces bytes 8-15 modulo the tier step
count, and returns tier minimum + step × 100,000 micro-USD; in particular a
tier roll of 100,000 with step entropy 0 yields exactly 5,000,000 micro-USD. -/
theorem claim1_tiered_reward_mapping :
    (∀ b : Fin 32 → Nat, map_to_tiered_distribution b = rewardSpec b) ∧
    leU64 scenarioBytes 0 % PROB_PRECISION = 100000 ∧
    leU64 scenarioBytes 8 = 0 ∧
    map_to_tiered_distribution scenarioBytes = 5000000 :=
  ⟨map_to_tiered_eq_rewardSpec, by decide, by decide, by decide⟩

/-- C2: the reward is always between 5,000,000 and 99,900,000 micro-USD, and
the tier bands are respected inclusively (roll below 150,000 gives at most
7.0 USD, below 650,000 at most 14.0 USD, below 950,000 at most 49.9 USD). -/
theorem claim2_reward_bounds (b : Fin 32 → Nat) :
    TIER1_MIN_USD ≤ map_to_tiered_distribution b ∧
    map_to_tiered_distribution b ≤ TIER4_MAX_USD ∧
    (leU64 b 0 % PROB_PRECISION < TIER1_THRESHOLD → map_to_tiered_distribution b ≤ 7000000) ∧
    (leU64 b 0 % PROB_PRECISION < TIER2_THRESHOLD → map_to_tiered_distribution b ≤ 14000000) ∧
    (leU64 b 0 % PROB_PRECISION < TIER3_THRESHOLD → map_to_tiered_distribution b ≤ 49900000) := by
  rw [map_to_tiered_eq_rewardSpec]
  simp only [rewardSpec, PROB_PRECISION, TIER1_THRESHOLD, TIER2_THRESHOLD, TIER3_THRESHOLD,
    TIER1_MIN_USD, TIER4_MAX_USD]
  refine ⟨?_, ?_, ?_, ?_, ?_⟩ <;> (try intro h) <;> split_ifs <;> omega

/-- Closed instance of C2 discharging its tier-band hypotheses at the
scenario entropy (roll 100,000 lands in tier 1). -/
theorem claim2_reward_bounds_witness :
    leU64 scenarioBytes 0 % PROB_PRECISION < TIER1_THRESHOLD ∧
    TIER1_MIN_USD ≤ map_to_tiered_distribution scenarioBytes ∧
    map_to_tiered_distribution scenarioBytes ≤ 7000000 :=
  ⟨by decide, (claim2_reward_bounds scenarioBytes).1,
    (claim2_reward_bounds scenarioBytes).2.2.1 (by decide)⟩

/-- C4: pool selection reduces bytes 8-15 of the original shared entropy
modulo `active_pool_count`, returns the identifier stored at that position of
the active-index array (hence always a member of the first
`active_pool_count` entries), returns the default 0 when no pool is active,
and `process_vrf_result` feeds it the original entropy, not a per-item
derived value. -/
theorem claim4_active_pool_selection (b : Fin 32 → Nat) (config : IPFlowState) :
    (config.active_pool_count = 0 →
      select_active_prize_pool b config.active_pool_count config.active_pool_indices = 0) ∧
    (0 < config.active_pool_count →
      select_active_prize_pool b config.active_pool_count config.active_pool_indices
          = config.active_pool_indices (leU64 b 8 % config.active_pool_count) ∧
      ∃ pos, pos < config.active_pool_count ∧
        config.active_pool_indices pos
          = select_active_prize_pool b config.active_pool_count config.active_pool_indices) ∧
    (∀ cards res,
      process_vrf_result b cards config.active_pool_count config.active_pool_indices
          = some res →
      res.selected_pool_index =
        if 0 < config.active_pool_count then
          select_active_prize_pool b config.active_pool_count config.active_pool_indices
        else 0) := by
  refine ⟨fun h0 => by simp [select_active_prize_pool, h0], fun hpos => ?_, fun cards res h => ?_⟩
  · have hne : ¬ config.active_pool_count = 0 := by omega
    refine ⟨by simp [select_active_prize_pool, hne], ⟨leU64 b 8 % config.active_pool_count,
      Nat.mod_lt _ hpos, by simp [select_active_prize_pool, hne]⟩⟩
  · unfold process_vrf_result at h
    cases hsum : sumRewards b cards with
    | none => rw [hsum] at h; cases h
    | some t => rw [hsum] at h; cases h; rfl

/-- Concrete entropy for the C4 scenario: byte 8 is 3, so the pool-selection
window reduces to position 3 modulo 5. -/
def c4Bytes : Fin 32 → Nat := fun i => if i.val = 8 then 3 else 0

/-- Configuration with active pools {0, 2, 4, 6, 8} in the first five slots. -/
def c4Config : IPFlowState :=
  { admin := 0, vault_bump := 0, total_collected := 0, platform_fee_bps := 0,
    is_paused := false, pool_count := 0, prize_pool_count := 5, active_pool_count := 5,
    active_pool_indices := fun j => if j < 5 then 2 * j else 255,
    oracle_queue := 0, request_timeout_seconds := 45 }

/-- Closed instance of C4: with active identifiers {0,2,4,6,8} and selection
position 3 the selected pool is 6, a member of the active list. -/
theorem claim4_active_pool_selection_witness :
    0 < c4Config.active_pool_count ∧
    select_active_prize_pool c4Bytes c4Config.active_pool_count c4Config.active_pool_indices = 6 ∧
    (∃ pos, pos < c4Config.active_pool_count ∧
      c4Config.active_pool_indices pos
        = select_active_prize_pool c4Bytes c4Config.active_pool_count
            c4Config.active_pool_indices) :=
  ⟨by decide,
    ((claim4_active_pool_selection c4Bytes c4Config).2.1 (by decide)).1.trans (by decide),
    ((claim4_active_pool_selection c4Bytes c4Config).2.1 (by decide)).2⟩

/-- Unfolding of the byte cascade at a successor position. -/
theorem deriveAux_succ (p : Fin 32 → Nat) (k : Nat) (h : k + 1 < 32) :
    deriveAux p (k + 1) = p ⟨k + 1, h⟩ ^^^ deriveAux p k * 31 % 256 := by
  simp [deriveAux, h]

/-- XOR by a fixed value is cancellative. -/
theorem xor_right_cancel {a b c : Nat} (h : a ^^^ c = b ^^^ c) : a = b := by
  have h2 := congrArg (fun x => x ^^^ c) h
  simpa [Nat.xor_assoc, Nat.xor_self, Nat.xor_zero] using h2

/-- C5: the per-item derivation is a pure function, and on the item-index
domain (indices are below the 100-card bound of `request_mint`, in particular
below 256) distinct indices always produce distinct derived values. -/
theorem claim5_derive_pure_injective (s : Fin 32 → Nat) (hs : ∀ k, s k < 256)
    (i j : Nat) (hi : i < 256) (hj : j < 256) (hij : i ≠ j) :
    derive_random_result s i = derive_random_result s i ∧
    derive_random_result s i ≠ derive_random_result s j := by
  refine ⟨rfl, fun heq => hij ?_⟩
  have e1 : deriveAux (phase1 s i) 1 = deriveAux (phase1 s j) 1 :=
    congrFun heq ⟨1, by omega⟩
  have e2 : deriveAux (phase1 s i) 2 = deriveAux (phase1 s j) 2 :=
    congrFun heq ⟨2, by omega⟩
  rw [deriveAux_succ _ 1 (by omega), deriveAux_succ _ 1 (by omega), e1] at e2
  have hp : phase1 s i ⟨2, by omega⟩ = phase1 s j ⟨2, by omega⟩ := xor_right_cancel e2
  have hdi : i / 65536 = 0 := Nat.div_eq_of_lt (by omega)
  have hdj : j / 65536 = 0 := Nat.div_eq_of_lt (by omega)
  have hs2 := hs ⟨2, by omega⟩
  simp only [phase1, indexByte] at hp
  norm_num [hdi, hdj, Nat.xor_zero, Nat.mod_eq_of_lt hi, Nat.mod_eq_of_lt hj] at hp
  omega

/-- All-zero seed used to instantiate C5. -/
def zeroSeed : Fin 32 → Nat := fun _ => 0

/-- Closed instance of C5: item indices 0 and 1 give different derived values
on the all-zero seed. -/
theorem claim5_derive_pure_injective_witness :
    (∀ k : Fin 32, zeroSeed k < 256) ∧ (0 : Nat) < 256 ∧ (1 : Nat) < 256 ∧ (0 : Nat) ≠ 1 ∧
    derive_random_result zeroSeed 0 ≠ derive_random_result zeroSeed 1 :=
  ⟨by decide, by decide, by decide, by decide,
    (claim5_derive_pure_injective zeroSeed (by decide) 0 1 (by decide) (by decide)
      (by decide)).2⟩

/-- Concrete already-revealed request record. -/
def c3Request : MintRequest :=
  { user := 1, randomness_account := 2, amount_of_cards := 1,
    status := RequestStatus.Revealed, payment_mode := PaymentMode.SOL,
    total_won_usd := 5000000, paid_amount := 100, created_at := 0, revealed_at := 10,
    selected_pool_index := 2, commit_slot := 0, reveal_slot := 3, vrf_request_slot := 4 }

/-- C3 (divergence witness): invoking the full `consume_lottery_randomness`
instruction on an already-Revealed record does not return success — the
Anchor account constraint `mint_request.status == RequestStatus::Pending` in
src/lib.rs rejects it with `InvalidRequestStatus` — even though the handler
body itself (documented as idempotent in consume_randomness.rs) would return
`Ok` with the record unchanged.  The handler's idempotency branch is dead
code behind the constraint. -/
theorem claim3_reveal_not_idempotent :
    consume_lottery_randomness c3Request c4Config zeroSeed 99 7
        = .error IPFlowError.InvalidRequestStatus ∧
    consume_randomness_handler c3Request c4Config zeroSeed 99 7 = .ok c3Request :=
  ⟨rfl, rfl⟩

/-- Upper bound on a single card reward (used for the accumulation bound). -/
theorem map_to_tiered_le (b : Fin 32 → Nat) : map_to_tiered_distribution b ≤ 99900000 := by
  rw [map_to_tiered_eq_rewardSpec]
  simp only [rewardSpec]
  split_ifs <;> omega

/-- The checked accumulation loop succeeds with the mathematical sum exactly
when that sum fits in a u64, and fails otherwise. -/
theorem sumRewards_eq (r : Fin 32 → Nat) (n : Nat) :
    sumRewards r n = if specSum r n < 2 ^ 64 then some (specSum r n) else none := by
  induction n with
  | zero => simp [sumRewards, specSum]
  | succ n ih =>
    have hstep : specSum r (n + 1)
        = specSum r n + map_to_tiered_distribution (derive_random_result r n) := rfl
    have hr := map_to_tiered_le (derive_random_result r n)
    rw [sumRewards, ih]
    by_cases hlt : specSum r n < 2 ^ 64
    · rw [if_pos hlt]
      simp only [checked_add_u64, hstep]
    · rw [if_neg hlt, if_neg (by omega)]

/-- C10: on a Pending request the reveal stores the overflow-checked sum of
the per-item rewards (reward mapping applied to each per-item derived
entropy); if the accumulation overflows u64 the whole instruction aborts with
the arithmetic error and the record is left unchanged, still Pending. -/
theorem claim10_reveal_overflow_checked_sum (req : MintRequest) (config : IPFlowState)
    (randomness : Fin 32 → Nat) (now : Int) (slot : Nat)
    (hst : req.status = RequestStatus.Pending) :
    (specSum randomness req.amount_of_cards < 2 ^ 64 →
      consume_lottery_randomness req config randomness now slot =
        .ok { req with
              status := RequestStatus.Revealed,
              total_won_usd := specSum randomness req.amount_of_cards,
              selected_pool_index :=
                if 0 < config.active_pool_count then
                  select_active_prize_pool randomness config.active_pool_count
                    config.active_pool_indices
                else 0,
              revealed_at := now,
              reveal_slot := slot }) ∧
    (2 ^ 64 ≤ specSum randomness req.amount_of_cards →
      consume_lottery_randomness req config randomness now slot
          = .error IPFlowError.MathOverflow ∧
      consume_applied req config randomness now slot = req ∧
      (consume_applied req config randomness now slot).status = RequestStatus.Pending) := by
  constructor
  · intro hlt
    have hlt' : specSum randomness req.amount_of_cards < 18446744073709551616 := by omega
    simp [consume_lottery_randomness, consume_randomness_handler, hst, process_vrf_result,
      sumRewards_eq, hlt']
  · intro hge
    have hge' : ¬ specSum randomness req.amount_of_cards < 18446744073709551616 := by omega
    have h1 : consume_lottery_randomness req config randomness now slot
        = .error IPFlowError.MathOverflow := by
      simp [consume_lottery_randomness, consume_randomness_handler, hst, process_vrf_result,
        sumRewards_eq, hge']
    refine ⟨h1, ?_, ?_⟩ <;> simp [consume_applied, h1, hst]

/-- Concrete Pending single-card request. -/
def c10Request : MintRequest :=
  { user := 1, randomness_account := 0, amount_of_cards := 1,
    status := RequestStatus.Pending, payment_mode := PaymentMode.SOL,
    total_won_usd := 0, paid_amount := 50, created_at := 0, revealed_at := 0,
    selected_pool_index := 0, commit_slot := 0, reveal_slot := 0, vrf_request_slot := 0 }

/-- Closed instance of C10 on a one-card Pending request (the sum fits). -/
theorem claim10_reveal_overflow_checked_sum_witness :
    c10Request.status = RequestStatus.Pending ∧
    specSum zeroSeed c10Request.amount_of_cards < 2 ^ 64 ∧
    consume_lottery_randomness c10Request c4Config zeroSeed 7 9 =
      .ok { c10Request with
            status := RequestStatus.Revealed,
            total_won_usd := specSum zeroSeed c10Request.amount_of_cards,
            selected_pool_index :=
              if 0 < c4Config.active_pool_count then
                select_active_prize_pool zeroSeed c4Config.active_pool_count
                  c4Config.active_pool_indices
              else 0,
            revealed_at := 7,
            reveal_slot := 9 } :=
  ⟨rfl, by decide,
    (claim10_reveal_overflow_checked_sum c10Request c4Config zeroSeed 7 9 rfl).1 (by decide)⟩

/-- C6: claim fails with `ClaimExpired` when invoked more than 24 hours after
the recorded reveal timestamp; within the window the SOL payout disburses the
oracle conversion of `total_won_usd * 95 / 100`, while the Token payout uses
the oracle conversion of the full `total_won_usd` as swap input with minimum
output `expected_output * (10000 - 300) / 10000`, on both swap routes. -/
theorem claim6_claim_expiry_and_payout_split (req : MintRequest) (signer : Nat) (now : Int)
    (fresh : Bool) (price : Int) (expo : Nat)
    (vault_lamports min_rent remaining_count : Nat) (raydium_program_ok : Bool)
    (hu : req.user = signer) (hrev : req.status = RequestStatus.Revealed) :
    (CLAIM_TIMEOUT_SECONDS < now - req.revealed_at →
      ∀ payout_mode swap_router expected_token_output swap_data,
        claim_instruction req signer now fresh price expo vault_lamports min_rent
            remaining_count raydium_program_ok payout_mode swap_router expected_token_output
            swap_data = .error IPFlowError.ClaimExpired) ∧
    (∀ L, now - req.revealed_at < CLAIM_TIMEOUT_SECONDS →
      req.total_won_usd * 95 < 2 ^ 64 →
      get_lamports_for_micro_usd fresh price expo (req.total_won_usd * 95 / 100) = .ok L →
      L ≤ vault_lamports - min_rent →
      claim_instruction req signer now fresh price expo vault_lamports min_rent
          remaining_count raydium_program_ok PayoutMode.SOL none none none
        = .ok (none, PayoutAction.solTransfer L)) ∧
    (∀ A expected_output data, now - req.revealed_at < CLAIM_TIMEOUT_SECONDS →
      3 ≤ remaining_count →
      get_lamports_for_micro_usd fresh price expo req.total_won_usd = .ok A →
      expected_output * 9700 < 2 ^ 64 →
      claim_instruction req signer now fresh price expo vault_lamports min_rent
          remaining_count raydium_program_ok PayoutMode.Token (some SwapRouter.Jupiter)
          (some expected_output) (some data)
        = .ok (none, PayoutAction.jupiterSwap A (expected_output * 9700 / 10000) data)) ∧
    (∀ A expected_output, now - req.revealed_at < CLAIM_TIMEOUT_SECONDS →
      13 ≤ remaining_count → raydium_program_ok = true →
      get_lamports_for_micro_usd fresh price expo req.total_won_usd = .ok A →
      expected_output * 9700 < 2 ^ 64 →
      claim_instruction req signer now fresh price expo vault_lamports min_rent
          remaining_count raydium_program_ok PayoutMode.Token (some SwapRouter.Raydium)
          (some expected_output) none
        = .ok (none, PayoutAction.raydiumSwap A (expected_output * 9700 / 10000))) := by
  refine ⟨?_, ?_, ?_, ?_⟩
  · intro hexp payout_mode swap_router expected_token_output swap_data
    have hnl : ¬ now - req.revealed_at < CLAIM_TIMEOUT_SECONDS := by omega
    simp [claim_instruction, claim_handler, hu, hrev, hnl]
  · intro L hwin hmul horacle hbal
    have hmul' : ¬ (18446744073709551616 : Nat) ≤ req.total_won_usd * 95 := by omega
    simp [claim_instruction, claim_handler, hu, hrev, hwin, hmul', horacle, hbal]
  · intro A expected_output data hwin hrem horacle hexp
    have hrem0 : ¬ remaining_count = 0 := by omega
    have hexp' : ¬ (18446744073709551616 : Nat) ≤ expected_output * 9700 := by omega
    simp [claim_instruction, claim_handler, calculate_min_output, DEFAULT_SLIPPAGE_BPS,
      hu, hrev, hwin, hrem0, hrem, horacle, hexp']
  · intro A expected_output hwin hrem hrok horacle hexp
    have hrem0 : ¬ remaining_count = 0 := by omega
    have hexp' : ¬ (18446744073709551616 : Nat) ≤ expected_output * 9700 := by omega
    simp [claim_instruction, claim_handler, calculate_min_output, DEFAULT_SLIPPAGE_BPS,
      hu, hrev, hwin, hrem0, hrem, hrok, horacle, hexp']

/-- Concrete revealed request for instantiating C6 (10 USD total reward). -/
def c6Request : MintRequest :=
  { user := 1, randomness_account := 0, amount_of_cards := 1,
    status := RequestStatus.Revealed, payment_mode := PaymentMode.SOL,
    total_won_usd := 10000000, paid_amount := 50, created_at := 0, revealed_at := 0,
    selected_pool_index := 0, commit_slot := 0, reveal_slot := 0, vrf_request_slot := 0 }

/-- Closed instance of C6: at 90000 s after reveal the claim expires; at
100 s, with a fresh price of 100 and exponent 0, the SOL mode transfers
95,000,000 lamports (95% of 10 USD at that price) and the Token modes swap
100,000,000 lamports (100%) with minimum output 4850 out of 5000 expected. -/
theorem claim6_claim_expiry_and_payout_split_witness :
    c6Request.user = 1 ∧ c6Request.status = RequestStatus.Revealed ∧
    CLAIM_TIMEOUT_SECONDS < (90000 : Int) - c6Request.revealed_at ∧
    claim_instruction c6Request 1 90000 true 100 0 200000000 1000 13 true
        PayoutMode.SOL none none none = .error IPFlowError.ClaimExpired ∧
    claim_instruction c6Request 1 100 true 100 0 200000000 1000 13 true
        PayoutMode.SOL none none none
      = .ok (none, PayoutAction.solTransfer 95000000) ∧
    claim_instruction c6Request 1 100 true 100 0 200000000 1000 13 true
        PayoutMode.Token (some SwapRouter.Jupiter) (some 5000) (some [1, 2, 3])
      = .ok (none, PayoutAction.jupiterSwap 100000000 4850 [1, 2, 3]) ∧
    claim_instruction c6Request 1 100 true 100 0 200000000 1000 13 true
        PayoutMode.Token (some SwapRouter.Raydium) (some 5000) none
      = .ok (none, PayoutAction.raydiumSwap 100000000 4850) :=
  ⟨rfl, rfl, by decide,
    (claim6_claim_expiry_and_payout_split c6Request 1 90000 true 100 0 200000000 1000 13 true
      rfl rfl).1 (by decide) PayoutMode.SOL none none none,
    (claim6_claim_expiry_and_payout_split c6Request 1 100 true 100 0 200000000 1000 13 true
      rfl rfl).2.1 95000000 (by decide) (by decide) (by decide) (by decide),
    (claim6_claim_expiry_and_payout_split c6Request 1 100 true 100 0 200000000 1000 13 true
      rfl rfl).2.2.1 100000000 5000 [1, 2, 3] (by decide) (by decide) (by decide) (by decide),
    (claim6_claim_expiry_and_payout_split c6Request 1 100 true 100 0 200000000 1000 13 true
      rfl rfl).2.2.2 100000000 5000 (by decide) (by decide) rfl (by decide) (by decide)⟩

/-- Concrete Pending SOL-paid request used against C7. -/
def c7Request : MintRequest :=
  { user := 1, randomness_account := 0, amount_of_cards := 1,
    status := RequestStatus.Pending, payment_mode := PaymentMode.SOL,
    total_won_usd := 0, paid_amount := 100, created_at := 0, revealed_at := 0,
    selected_pool_index := 0, commit_slot := 0, reveal_slot := 0, vrf_request_slot := 0 }

/-- C7 counterexample: a Pending request past the timeout whose refund fails
anyway (`InsufficientVaultBalance`, the vault holds less than `paid_amount`),
so the claimed "succeeds if and only if Pending and timed out" is false. -/
theorem claim7_counterexample :
    c7Request.status = RequestStatus.Pending ∧
    c4Config.request_timeout_seconds < (1000 : Int) - c7Request.created_at ∧
    refund_instruction (some c7Request) c4Config 1 9 1000 0 false none none
      = .error IPFlowError.InsufficientVaultBalance :=
  ⟨rfl, by decide, by decide⟩

/-- C7 (amended): refund fails with `RefundNotAllowed`, before any state
mutation, unless the status is Pending and the elapsed time since creation
strictly exceeds the configured timeout; when that precondition holds and the
vault covers the recorded `paid_amount` (and, for token payments, the token
accounts are present and valid), it transfers exactly `paid_amount` back to
the owner in the original payment currency and the record is destroyed; a
refund of a destroyed (already refunded) record fails at account
validation. -/
theorem claim7_refund_amended (req : MintRequest) (config : IPFlowState)
    (signer vault_key : Nat) (now : Int) (vault_lamports : Nat)
    (token_program_present : Bool) (vault_token user_token : Option TokenAccount)
    (hu : req.user = signer) :
    (¬ (req.status = RequestStatus.Pending ∧
          config.request_timeout_seconds < now - req.created_at) →
      refund_instruction (some req) config signer vault_key now vault_lamports
          token_program_present vault_token user_token
        = .error IPFlowError.RefundNotAllowed) ∧
    (req.status = RequestStatus.Pending →
      config.request_timeout_seconds < now - req.created_at →
      req.payment_mode = PaymentMode.SOL → req.paid_amount ≤ vault_lamports →
      refund_instruction (some req) config signer vault_key now vault_lamports
          token_program_present vault_token user_token
        = .ok (none, RefundTransfer.solTransfer req.paid_amount)) ∧
    (∀ vta uta, req.status = RequestStatus.Pending →
      config.request_timeout_seconds < now - req.created_at →
      req.payment_mode = PaymentMode.USDT → token_program_present = true →
      vault_token = some vta → user_token = some uta →
      req.paid_amount ≤ vta.amount → uta.owner = signer → uta.mint = USDT_MINT_DEVNET →
      vta.mint = USDT_MINT_DEVNET → vta.owner = vault_key →
      refund_instruction (some req) config signer vault_key now vault_lamports
          token_program_present vault_token user_token
        = .ok (none, RefundTransfer.usdtTransfer req.paid_amount)) ∧
    refund_instruction none config signer vault_key now vault_lamports
        token_program_present vault_token user_token
      = .error IPFlowError.AccountNotInitialized := by
  refine ⟨?_, ?_, ?_, rfl⟩
  · intro hnot
    simp [refund_instruction, refund_handler, hu, hnot]
  · intro hst htime hmode hbal
    simp [refund_instruction, refund_handler, hu, hst, htime, hmode, hbal]
  · intro vta uta hst htime hmode htp hvt hut hbal howner humint hvmint hvowner
    simp [refund_instruction, refund_handler, hu, hst, htime, hmode, htp, hvt, hut, hbal,
      howner, humint, hvmint, hvowner]

/-- Concrete Pending USDT-paid request for the token branch of C7. -/
def c7UsdtRequest : MintRequest :=
  { c7Request with payment_mode := PaymentMode.USDT, paid_amount := 250 }

/-- Closed instance of the amended C7: a pre-timeout refund is rejected, a
timed-out SOL refund returns the paid lamports and destroys the record, a
timed-out USDT refund returns the paid token amount, and refunding the
destroyed record fails. -/
theorem claim7_refund_amended_witness :
    ¬ (c7Request.status = RequestStatus.Pending ∧
        c4Config.request_timeout_seconds < (10 : Int) - c7Request.created_at) ∧
    refund_instruction (some c7Request) c4Config 1 9 10 5000 false none none
      = .error IPFlowError.RefundNotAllowed ∧
    refund_instruction (some c7Request) c4Config 1 9 1000 5000 false none none
      = .ok (none, RefundTransfer.solTransfer 100) ∧
    refund_instruction (some c7UsdtRequest) c4Config 1 9 1000 0 true
        (some { amount := 500, owner := 9, mint := 77 })
        (some { amount := 0, owner := 1, mint := 77 })
      = .ok (none, RefundTransfer.usdtTransfer 250) ∧
    refund_instruction none c4Config 1 9 1000 5000 false none none
      = .error IPFlowError.AccountNotInitialized :=
  ⟨by decide,
    (claim7_refund_amended c7Request c4Config 1 9 10 5000 false none none rfl).1 (by decide),
    (claim7_refund_amended c7Request c4Config 1 9 1000 5000 false none none rfl).2.1
      rfl (by decide) rfl (by decide),
    (claim7_refund_amended c7UsdtRequest c4Config 1 9 1000 0 true
        (some { amount := 500, owner := 9, mint := 77 })
        (some { amount := 0, owner := 1, mint := 77 }) rfl).2.2.1
      { amount := 500, owner := 9, mint := 77 } { amount := 0, owner := 1, mint := 77 }
      rfl (by decide) rfl rfl rfl rfl (by decide) rfl (by decide) (by decide) rfl,
    (claim7_refund_amended c7Request c4Config 1 9 1000 5000 false none none rfl).2.2.2⟩

/-- Pointwise effect of the shift loop: slots `i .. i+fuel-1` take the value
of their right neighbour, every other slot is untouched. -/
theorem shiftGo_apply (fuel : Nat) : ∀ (a : Nat → Nat) (i j : Nat),
    shiftGo a i fuel j = if i ≤ j ∧ j < i + fuel then a (j + 1) else a j := by
  induction fuel with
  | zero =>
    intro a i j
    simp only [shiftGo]
    rw [if_neg (by omega)]
  | succ fuel ih =>
    intro a i j
    simp only [shiftGo]
    rw [ih]
    by_cases h1 : i + 1 ≤ j ∧ j < i + 1 + fuel
    · rw [if_pos h1, if_neg (by omega : ¬ j + 1 = i), if_pos (by omega)]
    · rw [if_neg h1]
      by_cases h2 : j = i
      · subst h2
        rw [if_pos rfl, if_pos (by omega)]
      · rw [if_neg h2]
        by_cases h3 : i ≤ j ∧ j < i + (fuel + 1)
        · exact absurd h3 (by omega)
        · rw [if_neg h3]

/-- The linear scan finds the unique position holding the target. -/
theorem findGo_eq (a : Nat → Nat) (t : Nat) :
    ∀ (fuel i pos : Nat), i ≤ pos → pos < i + fuel → a pos = t →
      (∀ k, i ≤ k → k < pos → ¬ a k = t) → findGo a t i fuel = some pos := by
  intro fuel
  induction fuel with
  | zero =>
    intro i pos h1 h2 _ _
    exact absurd h2 (by omega)
  | succ fuel ih =>
    intro i pos h1 h2 h3 h4
    simp only [findGo]
    by_cases he : a i = t
    · have hip : i = pos := by
        by_contra hne
        exact h4 i (Nat.le_refl i) (by omega) he
      rw [if_pos he, hip]
    · rw [if_neg he]
      have hip : ¬ i = pos := fun h => he (h ▸ h3)
      exact ih (i + 1) pos (by omega) (by omega) h3 (fun k hk1 hk2 => h4 k (by omega) hk2)

/-- C8: a successful removal never touches any surviving pool record (hence
never its `index` field), and afterwards the active-index array holds exactly
the surviving active identifiers, in their original relative order, packed at
the front without gaps or duplicates, with the vacated trailing slot set to
the sentinel 255 and the active count decremented by one. -/
theorem claim8_remove_pool_compaction (config : IPFlowState)
    (pools : Nat → Option PrizePoolAccount) (rec : PrizePoolAccount) (pos : Nat)
    (hcount : config.active_pool_count ≤ 50)
    (hpos : pos < config.active_pool_count)
    (hat : config.active_pool_indices pos = rec.index)
    (hinj : ∀ j, j < config.active_pool_count → ∀ k, k < config.active_pool_count →
      config.active_pool_indices j = config.active_pool_indices k → j = k)
    (hsent : ∀ j, j < 50 → config.active_pool_count ≤ j → config.active_pool_indices j = 255)
    (hnosent : ∀ j, j < config.active_pool_count → config.active_pool_indices j ≠ 255)
    (hrec : pools rec.index = some rec) :
    ∃ config2 pools2,
      remove_prize_pool config pools rec.index = .ok (config2, pools2) ∧
      config2.active_pool_count = config.active_pool_count - 1 ∧
      config2.prize_pool_count = config.prize_pool_count ∧
      (∀ j, j < pos → config2.active_pool_indices j = config.active_pool_indices j) ∧
      (∀ j, pos ≤ j → j < config.active_pool_count - 1 →
        config2.active_pool_indices j = config.active_pool_indices (j + 1)) ∧
      (∀ j, j < 50 → config.active_pool_count - 1 ≤ j →
        config2.active_pool_indices j = 255) ∧
      (∀ j, j < config.active_pool_count - 1 → config2.active_pool_indices j ≠ 255) ∧
      (∀ j k, j < config.active_pool_count - 1 → k < config.active_pool_count - 1 →
        config2.active_pool_indices j = config2.active_pool_indices k → j = k) ∧
      (∀ v, (∃ j, j < config.active_pool_count - 1 ∧ config2.active_pool_indices j = v) ↔
        (∃ j, j < config.active_pool_count ∧ config.active_pool_indices j = v ∧
          v ≠ rec.index)) ∧
      pools2 rec.index = none ∧
      (∀ id, id ≠ rec.index → pools2 id = pools id) := by
  have h0 : 0 < config.active_pool_count := by omega
  have hfind : findGo config.active_pool_indices rec.index 0 config.active_pool_count
      = some pos :=
    findGo_eq _ _ _ 0 pos (Nat.zero_le _) (by omega) hat
      (fun k _ hklt hak => absurd (hinj k (by omega) pos hpos (by rw [hak, hat])) (by omega))
  -- the instruction succeeds with the shifted array
  refine ⟨{ config with
            active_pool_indices :=
              fun j => if j = config.active_pool_count - 1 then 255
                       else shiftGo config.active_pool_indices pos
                              (config.active_pool_count - 1 - pos) j,
            active_pool_count := config.active_pool_count - 1 },
          fun id => if id = rec.index then none else pools id,
          ?_, rfl, rfl, ?_, ?_, ?_, ?_, ?_, ?_, by simp, fun id hid => by simp [hid]⟩
  · simp only [remove_prize_pool, hrec, hfind]
    rw [if_neg (by omega)]
  -- pointwise description of the new array
  · intro j hj
    simp only
    rw [if_neg (by omega), shiftGo_apply, if_neg (by omega)]
  · intro j hj1 hj2
    simp only
    rw [if_neg (by omega), shiftGo_apply, if_pos (by omega)]
  · intro j hj1 hj2
    simp only
    by_cases hl : j = config.active_pool_count - 1
    · rw [if_pos hl]
    · rw [if_neg hl, shiftGo_apply, if_neg (by omega)]
      exact hsent j hj1 (by omega)
  · intro j hj
    simp only
    rw [if_neg (by omega), shiftGo_apply]
    by_cases hc : pos ≤ j ∧ j < pos + (config.active_pool_count - 1 - pos)
    · rw [if_pos hc]
      exact hnosent (j + 1) (by omega)
    · rw [if_neg hc]
      exact hnosent j (by omega)
  · intro j k hj hk
    simp only
    rw [if_neg (by omega), if_neg (by omega), shiftGo_apply, shiftGo_apply]
    by_cases hcj : pos ≤ j ∧ j < pos + (config.active_pool_count - 1 - pos) <;>
      by_cases hck : pos ≤ k ∧ k < pos + (config.active_pool_count - 1 - pos)
    · rw [if_pos hcj, if_pos hck]
      intro h
      have := hinj (j + 1) (by omega) (k + 1) (by omega) h
      omega
    · rw [if_pos hcj, if_neg hck]
      intro h
      have := hinj (j + 1) (by omega) k (by omega) h
      omega
    · rw [if_neg hcj, if_pos hck]
      intro h
      have := hinj j (by omega) (k + 1) (by omega) h
      omega
    · rw [if_neg hcj, if_neg hck]
      intro h
      exact hinj j (by omega) k (by omega) h
  · intro v
    simp only
    constructor
    · rintro ⟨j, hj, hjv⟩
      rw [if_neg (by omega), shiftGo_apply] at hjv
      by_cases hc : pos ≤ j ∧ j < pos + (config.active_pool_count - 1 - pos)
      · rw [if_pos hc] at hjv
        refine ⟨j + 1, by omega, hjv, fun hv => ?_⟩
        have := hinj (j + 1) (by omega) pos hpos (by rw [hjv, hv, hat])
        omega
      · rw [if_neg hc] at hjv
        refine ⟨j, by omega, hjv, fun hv => ?_⟩
        have := hinj j (by omega) pos hpos (by rw [hjv, hv, hat])
        omega
    · rintro ⟨j, hj, hjv, hvne⟩
      have hjpos : ¬ j = pos := fun h => hvne (by rw [← hjv, h, hat])
      by_cases hjlt : j < pos
      · refine ⟨j, by omega, ?_⟩
        rw [if_neg (by omega), shiftGo_apply, if_neg (by omega)]
        exact hjv
      · refine ⟨j - 1, by omega, ?_⟩
        rw [if_neg (by omega), shiftGo_apply, if_pos (by omega)]
        have : j - 1 + 1 = j := by omega
        rw [this]
        exact hjv

/-- Concrete pool record with identifier `i`. -/
def c8Pool (i : Nat) : PrizePoolAccount :=
  { index := i, swap_pool := 10 + i, pool_type := PoolType.RaydiumCPMM, name := "p", bump := 0 }

/-- Concrete pool store holding records 0, 2 and 5. -/
def c8Pools : Nat → Option PrizePoolAccount :=
  fun id => if id = 0 ∨ id = 2 ∨ id = 5 then some (c8Pool id) else none

/-- Configuration with active identifiers [0, 2, 5] (pools 1, 3, 4 already
removed) and counter 6. -/
def c8Config : IPFlowState :=
  { c4Config with
    prize_pool_count := 6
    active_pool_count := 3
    active_pool_indices :=
      fun j => if j = 0 then 0 else if j = 1 then 2 else if j = 2 then 5 else 255 }

/-- Closed instance of C8: removing pool 2 from actives [0, 2, 5] yields
count 2 with slot 1 now holding 5, and record 2 destroyed. -/
theorem claim8_remove_pool_compaction_witness :
    c8Config.active_pool_count ≤ 50 ∧ 1 < c8Config.active_pool_count ∧
    c8Config.active_pool_indices 1 = (c8Pool 2).index ∧
    c8Pools (c8Pool 2).index = some (c8Pool 2) ∧
    (∃ config2 pools2,
      remove_prize_pool c8Config c8Pools (c8Pool 2).index = .ok (config2, pools2) ∧
      config2.active_pool_count = 2 ∧
      config2.active_pool_indices 1 = 5 ∧
      pools2 (c8Pool 2).index = none ∧
      pools2 0 = c8Pools 0) := by
  refine ⟨by decide, by decide, by decide, by decide, ?_⟩
  obtain ⟨c2, p2, h1, h2, _, _, h5, _, _, _, _, h10, h11⟩ :=
    claim8_remove_pool_compaction c8Config c8Pools (c8Pool 2) 1 (by decide) (by decide)
      (by decide) (by decide) (by decide) (by decide) (by decide)
  refine ⟨c2, p2, h1, h2.trans (by decide), ?_, h10, h11 0 (by decide)⟩
  exact (h5 1 (by decide) (by decide)).trans (by decide)

/-- Inversion of a successful `add_prize_pool`. -/
theorem add_ok_elim {config : IPFlowState} {pools : Nat → Option PrizePoolAccount}
    {sp : Nat} {pt : PoolType} {nm : String} {c2 : IPFlowState}
    {p2 : Nat → Option PrizePoolAccount}
    (h : add_prize_pool config pools sp pt nm = .ok (c2, p2)) :
    pools config.prize_pool_count = none ∧
    c2.prize_pool_count = config.prize_pool_count + 1 ∧
    c2.active_pool_count = config.active_pool_count + 1 ∧
    c2.active_pool_indices config.active_pool_count = config.prize_pool_count ∧
    (∀ j, ¬ j = config.active_pool_count →
      c2.active_pool_indices j = config.active_pool_indices j) ∧
    p2 config.prize_pool_count
      = some { index := config.prize_pool_count, swap_pool := sp, pool_type := pt,
               name := nm, bump := 0 } ∧
    (∀ id, ¬ id = config.prize_pool_count → p2 id = pools id) := by
  unfold add_prize_pool at h
  split_ifs at h with h1 h2 h3 h4
  rw [Except.ok.injEq, Prod.mk.injEq] at h
  obtain ⟨hc, hp⟩ := h
  subst hc
  subst hp
  refine ⟨?_, rfl, rfl, by simp, fun j hj => by simp [hj], by simp, fun id hid => by simp [hid]⟩
  exact Option.isNone_iff_eq_none.mp h1

/-- Inversion of a successful `remove_prize_pool` (the parts C9 needs). -/
theorem remove_ok_elim {config : IPFlowState} {pools : Nat → Option PrizePoolAccount}
    {t : Nat} {c2 : IPFlowState} {p2 : Nat → Option PrizePoolAccount}
    (h : remove_prize_pool config pools t = .ok (c2, p2)) :
    c2.prize_pool_count = config.prize_pool_count ∧
    p2 t = none ∧ (∀ id, ¬ id = t → p2 id = pools id) := by
  unfold remove_prize_pool at h
  cases hp : pools t with
  | none =>
    rw [hp] at h
    exact Except.noConfusion h
  | some rec =>
    rw [hp] at h
    split_ifs at h with h1
    dsimp only at h
    cases hf : findGo config.active_pool_indices rec.index 0 config.active_pool_count with
    | none =>
      rw [hf] at h
      exact Except.noConfusion h
    | some pos =>
      rw [hf] at h
      simp only at h
      rw [Except.ok.injEq, Prod.mk.injEq] at h
      obtain ⟨hc, hp2⟩ := h
      subst hc
      subst hp2
      exact ⟨rfl, by simp, fun id hid => by simp [hid]⟩

/-- Inversion of a successful `update_prize_pool`. -/
theorem update_ok_elim {config : IPFlowState} {pools : Nat → Option PrizePoolAccount}
    {t : Nat} {sp : Option Nat} {pt : Option PoolType} {nm : Option String}
    {c2 : IPFlowState} {p2 : Nat → Option PrizePoolAccount}
    (h : update_prize_pool config pools t sp pt nm = .ok (c2, p2)) :
    ∃ rec, pools t = some rec ∧ c2 = config ∧
      p2 t = some { rec with
                    swap_pool := sp.getD rec.swap_pool
                    pool_type := pt.getD rec.pool_type
                    name := nm.getD rec.name } ∧
      (∀ id, ¬ id = t → p2 id = pools id) := by
  unfold update_prize_pool at h
  cases hp : pools t with
  | none =>
    rw [hp] at h
    exact Except.noConfusion h
  | some rec =>
    rw [hp] at h
    dsimp only at h
    rw [Except.ok.injEq, Prod.mk.injEq] at h
    obtain ⟨hc, hp2⟩ := h
    subst hc
    subst hp2
    exact ⟨rec, rfl, rfl, by simp, fun id hid => by simp [hid]⟩

/-- No registry operation ever decreases the monotonic pool counter. -/
theorem applyOp_counter_mono (s : Registry) (op : RegOp) :
    s.config.prize_pool_count ≤ (applyOp s op).config.prize_pool_count := by
  cases op with
  | add sp pt nm =>
    cases h : add_prize_pool s.config s.pools sp pt nm with
    | error e => simp [applyOp, h]
    | ok cp =>
      obtain ⟨c2, p2⟩ := cp
      have h2 := (add_ok_elim h).2.1
      simp [applyOp, h, h2]
  | remove t =>
    cases h : remove_prize_pool s.config s.pools t with
    | error e => simp [applyOp, h]
    | ok cp =>
      obtain ⟨c2, p2⟩ := cp
      have h2 := (remove_ok_elim h).1
      simp [applyOp, h, h2]
  | update t sp pt nm =>
    cases h : update_prize_pool s.config s.pools t sp pt nm with
    | error e => simp [applyOp, h]
    | ok cp =>
      obtain ⟨c2, p2⟩ := cp
      obtain ⟨rec, -, hc, -, -⟩ := update_ok_elim h
      simp [applyOp, h, hc]

/-- The identifier-coherence invariant is preserved by every operation. -/
theorem RegInv_applyOp (s : Registry) (op : RegOp) (hinv : RegInv s) :
    RegInv (applyOp s op) := by
  cases op with
  | add sp pt nm =>
    cases h : add_prize_pool s.config s.pools sp pt nm with
    | error e => simpa [applyOp, h] using hinv
    | ok cp =>
      obtain ⟨c2, p2⟩ := cp
      obtain ⟨hnone, hcnt, hacnt, hat, hother, hpnew, hpother⟩ := add_ok_elim h
      simp only [applyOp, h]
      intro id rec hid
      have hid2 : p2 id = some rec := hid
      show rec.index = id ∧ id < c2.prize_pool_count
      by_cases hEq : id = s.config.prize_pool_count
      · subst hEq
        rw [hpnew] at hid2
        injection hid2 with h2
        subst h2
        exact ⟨rfl, by omega⟩
      · rw [hpother id hEq] at hid2
        obtain ⟨hidx, hlt⟩ := hinv id rec hid2
        exact ⟨hidx, by omega⟩
  | remove t =>
    cases h : remove_prize_pool s.config s.pools t with
    | error e => simpa [applyOp, h] using hinv
    | ok cp =>
      obtain ⟨c2, p2⟩ := cp
      obtain ⟨hcnt, hnone, hother⟩ := remove_ok_elim h
      simp only [applyOp, h]
      intro id rec hid
      have hid2 : p2 id = some rec := hid
      show rec.index = id ∧ id < c2.prize_pool_count
      by_cases hEq : id = t
      · subst hEq
        rw [hnone] at hid2
        exact Option.noConfusion hid2
      · rw [hother id hEq] at hid2
        obtain ⟨hidx, hlt⟩ := hinv id rec hid2
        exact ⟨hidx, by omega⟩
  | update t sp pt nm =>
    cases h : update_prize_pool s.config s.pools t sp pt nm with
    | error e => simpa [applyOp, h] using hinv
    | ok cp =>
      obtain ⟨c2, p2⟩ := cp
      obtain ⟨rec, hrec, hc, hpnew, hpother⟩ := update_ok_elim h
      simp only [applyOp, h]
      intro id r2 hid
      have hid2 : p2 id = some r2 := hid
      show r2.index = id ∧ id < c2.prize_pool_count
      subst hc
      by_cases hEq : id = t
      · subst hEq
        rw [hpnew] at hid2
        injection hid2 with h2
        subst h2
        obtain ⟨hidx, hlt⟩ := hinv id rec hrec
        exact ⟨by simpa using hidx, hlt⟩
      · rw [hpother id hEq] at hid2
        exact hinv id r2 hid2

/-- The invariant is preserved by every sequence of operations. -/
theorem RegInv_applySeq (ops : List RegOp) : ∀ s, RegInv s → RegInv (applySeq s ops) := by
  induction ops with
  | nil => exact fun s h => h
  | cons op ops ih => exact fun s h => ih _ (RegInv_applyOp s op h)

/-- C9: the monotonic pool-creation counter is never decremented by any
operation; a (validated) Add assigns the new pool `index = prize_pool_count`,
appends that id at the end of the active list, and increments the counter;
and across every sequence of add/remove/update operations from an
identifier-coherent state no two pool records ever share an identifier. -/
theorem claim9_monotonic_counter_unique_ids :
    (∀ (s : Registry) (op : RegOp),
      s.config.prize_pool_count ≤ (applyOp s op).config.prize_pool_count) ∧
    (∀ (config : IPFlowState) (pools : Nat → Option PrizePoolAccount) (sp : Nat)
        (pt : PoolType) (nm : String),
      pools config.prize_pool_count = none →
      config.active_pool_count < MAX_PRIZE_POOLS →
      config.prize_pool_count + 1 < 256 →
      add_prize_pool config pools sp pt nm = .ok
        ({ config with
           active_pool_indices :=
             fun j => if j = config.active_pool_count then config.prize_pool_count
                      else config.active_pool_indices j
           active_pool_count := config.active_pool_count + 1
           prize_pool_count := config.prize_pool_count + 1 },
         fun id => if id = config.prize_pool_count then
             some { index := config.prize_pool_count, swap_pool := sp, pool_type := pt,
                    name := nm, bump := 0 }
           else pools id)) ∧
    (∀ (s : Registry) (ops : List RegOp), RegInv s → RegInv (applySeq s ops)) ∧
    (∀ (s : Registry) (ops : List RegOp), RegInv s →
      ∀ id1 id2 r1 r2, (applySeq s ops).pools id1 = some r1 →
        (applySeq s ops).pools id2 = some r2 → r1.index = r2.index → id1 = id2) := by
  refine ⟨applyOp_counter_mono, ?_, fun s ops h => RegInv_applySeq ops s h, ?_⟩
  · intro config pools sp pt nm hnone hcap hcnt
    have hcap' : config.active_pool_count + 1 < 256 := by
      have : config.active_pool_count < 50 := by simpa [MAX_PRIZE_POOLS] using hcap
      omega
    simp [add_prize_pool, hnone, hcap, hcap', hcnt]
  · intro s ops hinv id1 id2 r1 r2 h1 h2 hidx
    have hinv2 := RegInv_applySeq ops s hinv
    have e1 := (hinv2 id1 r1 h1).1
    have e2 := (hinv2 id2 r2 h2).1
    omega

/-- Freshly initialised configuration (no pools yet). -/
def emptyConfig : IPFlowState :=
  { admin := 0, vault_bump := 0, total_collected := 0, platform_fee_bps := 500,
    is_paused := false, pool_count := 0, prize_pool_count := 0, active_pool_count := 0,
    active_pool_indices := fun _ => 255, oracle_queue := 0, request_timeout_seconds := 45 }

/-- Registry with no pool records. -/
def emptyRegistry : Registry := ⟨emptyConfig, fun _ => none⟩

/-- Concrete add/add/remove/add cycle exercising identifier reuse. -/
def c9Ops : List RegOp :=
  [RegOp.add 5 PoolType.RaydiumCPMM "p", RegOp.add 6 PoolType.Orca "q",
   RegOp.remove 0, RegOp.add 7 PoolType.Jupiter "r"]

/-- Closed instance of C9 on the empty registry: the counter does not drop
under an add, a validated add appends id 0 and bumps the counter to 1, and
after the add/add/remove/add cycle identifier coherence still holds (pool 1
is the second pool, untouched by removing pool 0). -/
theorem claim9_monotonic_counter_unique_ids_witness :
    RegInv emptyRegistry ∧
    emptyRegistry.config.prize_pool_count ≤
      (applyOp emptyRegistry (RegOp.add 5 PoolType.RaydiumCPMM "p")).config.prize_pool_count ∧
    emptyRegistry.pools emptyRegistry.config.prize_pool_count = none ∧
    emptyRegistry.config.active_pool_count < MAX_PRIZE_POOLS ∧
    emptyRegistry.config.prize_pool_count + 1 < 256 ∧
    add_prize_pool emptyRegistry.config emptyRegistry.pools 5 PoolType.RaydiumCPMM "p"
      = .ok ({ emptyRegistry.config with
               active_pool_indices :=
                 fun j => if j = emptyRegistry.config.active_pool_count then
                     emptyRegistry.config.prize_pool_count
                   else emptyRegistry.config.active_pool_indices j
               active_pool_count := emptyRegistry.config.active_pool_count + 1
               prize_pool_count := emptyRegistry.config.prize_pool_count + 1 },
             fun id => if id = emptyRegistry.config.prize_pool_count then
                 some { index := emptyRegistry.config.prize_pool_count, swap_pool := 5,
                        pool_type := PoolType.RaydiumCPMM, name := "p", bump := 0 }
               else emptyRegistry.pools id) ∧
    RegInv (applySeq emptyRegistry c9Ops) ∧
    (applySeq emptyRegistry c9Ops).pools 1
      = some { index := 1, swap_pool := 6, pool_type := PoolType.Orca, name := "q",
               bump := 0 } ∧
    (1 : Nat) = 1 := by
  have hinv : RegInv emptyRegistry := fun id rec h => Option.noConfusion h
  refine ⟨hinv,
    claim9_monotonic_counter_unique_ids.1 emptyRegistry (RegOp.add 5 PoolType.RaydiumCPMM "p"),
    by decide, by decide, by decide,
    claim9_monotonic_counter_unique_ids.2.1 emptyRegistry.config emptyRegistry.pools 5
      PoolType.RaydiumCPMM "p" (by decide) (by decide) (by decide),
    claim9_monotonic_counter_unique_ids.2.2.1 emptyRegistry c9Ops hinv,
    by decide,
    claim9_monotonic_counter_unique_ids.2.2.2 emptyRegistry c9Ops hinv 1 1
      { index := 1, swap_pool := 6, pool_type := PoolType.Orca, name := "q", bump := 0 }
      { index := 1, swap_pool := 6, pool_type := PoolType.Orca, name := "q", bump := 0 }
      (by decide) (by decide) rfl⟩

end CardMachine
